import Mathlib

/-!
Verification of the go-cdn HTTP file server (NotAShelf/go-cdn).

The repository contains near-duplicate revisions of the same server:
* `main.go` (second program): the config-driven `CDNHandler` with
  `handleGet` / `handlePost` / `ServeHTTP`;
* `src/unnamed/part_000`: the chi-based revision with `serveCDN`,
  `handleUpload`, `checkAuthentication`, `sanitizeFilename` and
  `isValidFilename`.

This file shallowly embeds both revisions.  File contents are byte
sequences, the filesystem is an association list from (lexically
cleaned) path strings to file states, and each handler is a function
from a request and a filesystem to a response and a new filesystem.

Filesystem-mutation calls that the Go code performs (`os.MkdirAll`,
`os.Create`, `io.Copy`) are modelled as succeeding; their error
branches in the code return 500 and are not load-bearing for any claim
below.  `os.Stat` / `os.Open` outcomes are modelled faithfully with an
explicit `ioErr` file state for non-"not exist" errors.
-/

set_option autoImplicit false

namespace GoCdn

/-! ## Go lexical path algebra: `path/filepath` (unix rules)

`filepath.Join` concatenates its non-empty arguments with `/` and then
applies `filepath.Clean`.  `Clean` processes the path segment by
segment, dropping empty and `.` segments, resolving `..` against the
segment stack, and keeping leading `..` segments of a relative path.
-/

/-- Split a character list on `/`; mirrors how `filepath.Clean` walks
the path one slash-separated segment at a time. -/
def splitSlash : List Char → List (List Char)
  | [] => [[]]
  | c :: rest =>
    if c = '/' then [] :: splitSlash rest
    else
      match splitSlash rest with
      | [] => [[c]]
      | s :: ss => (c :: s) :: ss

/-- One step of `filepath.Clean`'s segment loop: `acc` is the stack of
output segments, most recent first. Empty and `.` segments are
dropped; `..` pops a non-`..` segment, is dropped at the root of a
rooted path, and is kept on a relative path that cannot backtrack. -/
def cleanStep (rooted : Bool) (acc : List (List Char)) (seg : List Char) : List (List Char) :=
  if seg = [] ∨ seg = ['.'] then acc
  else if seg = ['.', '.'] then
    match acc with
    | [] => if rooted then [] else [['.', '.']]
    | top :: acc2 => if top = ['.', '.'] then ['.', '.'] :: top :: acc2 else acc2
  else seg :: acc

/-- Run `cleanStep` over all segments and return them in order. -/
def cleanCore (rooted : Bool) : List (List Char) → List (List Char) → List (List Char)
  | [], acc => acc.reverse
  | seg :: rest, acc => cleanCore rooted rest (cleanStep rooted acc seg)

/-- Join segments with `/`. -/
def intercalSlash : List (List Char) → List Char
  | [] => []
  | [s] => s
  | s :: rest => s ++ '/' :: intercalSlash rest

/-- Does the path start with `/` (a rooted path)? -/
def headIsSlash : List Char → Bool
  | [] => false
  | c :: _ => decide (c = '/')

/-- `filepath.Clean` on the character list of a path. -/
def goCleanChars (cs : List Char) : List Char :=
  if cs = [] then ['.']
  else
    let rooted := headIsSlash cs
    let segs := cleanCore rooted (splitSlash cs) []
    if rooted then '/' :: intercalSlash segs
    else if segs = [] then ['.']
    else intercalSlash segs

/-- Go's `filepath.Clean` (unix separator). -/
def goClean (p : String) : String := String.mk (goCleanChars p.data)

/-- Go's `filepath.Join` on two elements: skip a leading empty
element, otherwise concatenate with `/` and `Clean` the result. -/
def goJoin (a b : String) : String :=
  if a ≠ "" then goClean (a ++ "/" ++ b)
  else if b ≠ "" then goClean b
  else ""

/-- Go's `filepath.Ext`: scan backwards from the end of the path until
a separator; return the suffix starting at the last dot, or `""`.
The first argument is the reversed character list of the path. -/
def goExtRev : List Char → List Char → Option (List Char)
  | [], _ => none
  | c :: rest, acc =>
    if c = '/' then none
    else if c = '.' then some ('.' :: acc)
    else goExtRev rest (c :: acc)

/-- Go's `filepath.Ext` on a path string. -/
def goExt (p : String) : String :=
  match goExtRev p.data.reverse [] with
  | some ext => String.mk ext
  | none => ""

/-- `pre` is an initial run of `l`. -/
def leadsWith : List Char → List Char → Bool
  | [], _ => true
  | _ :: _, [] => false
  | a :: as, b :: bs => a = b && leadsWith as bs

/-- A (cleaned) path lies within directory `dir`: it is `dir` itself
or starts with `dir ++ "/"`. -/
def isWithinDir (dir p : String) : Bool :=
  p = dir || leadsWith (dir.data ++ ['/']) p.data

/-! ## HTTP data model

A request carries the fields the handlers inspect: method, URL path,
decoded Basic-Auth credentials (`none` when the header is absent or
undecodable), the total multipart body size, whether the multipart
form is well-formed, and the `file` form field (filename and content),
`none` when the field is missing. -/

/-- File contents as a byte sequence. -/
abbrev ByteSeq := List Nat

/-- Outcome of `os.Stat` / `os.Open` on a path: the file is absent
(`os.IsNotExist` error), fails with some other error (permission,
I/O), or exists with the given content. -/
inductive FileRes where
  | missing
  | ioErr
  | file (content : ByteSeq)
deriving DecidableEq

/-- The filesystem: an association list from path strings to file
states; paths not listed are absent.  A write prepends, so the newest
entry for a path shadows older ones (overwrite semantics of
`os.Create`). -/
abbrev Fs := List (String × FileRes)

/-- Look a path up in the filesystem. -/
def lookFs : Fs → String → FileRes
  | [], _ => .missing
  | (p, res) :: rest, q => if q = p then res else lookFs rest q

/-- `os.Create` followed by a successful `io.Copy`: (over)write the
file at `p` with `content`. -/
def writeFs (p : String) (content : ByteSeq) (fs : Fs) : Fs :=
  (p, .file content) :: fs

/-- A response body: either handler-written text or streamed file
bytes. -/
inductive Body where
  | text (s : String)
  | bytes (b : ByteSeq)
deriving DecidableEq

/-- An HTTP response as the handlers build it. -/
structure Response where
  status : Nat
  headers : List (String × String)
  body : Body
deriving DecidableEq

/-- An HTTP request as the handlers inspect it. -/
structure Request where
  method : String
  urlPath : String
  basicAuth : Option (String × String)
  size : Nat
  formOk : Bool
  filePart : Option (String × ByteSeq)
deriving DecidableEq

/-- Go's `http.Error(w, msg, status)`: sets the plain-text headers and
writes `msg` followed by a newline. -/
def httpError (msg : String) (status : Nat) : Response :=
  { status := status
  , headers := [("Content-Type", "text/plain; charset=utf-8"),
                ("X-Content-Type-Options", "nosniff")]
  , body := .text (msg ++ "\n") }

/-- The 401 response both chi-revision handlers write on failed
authentication: `WWW-Authenticate` header, status 401, body
`"401 Unauthorized\n"`. -/
def auth401Response : Response :=
  { status := 401
  , headers := [("WWW-Authenticate", "Basic realm=\"CDN Authentication\"")]
  , body := .text "401 Unauthorized\n" }

/-! ## Chi-based revision (`src/unnamed/part_000`) -/

/-- The `Config` struct of the chi revision. -/
structure ChiConfig where
  username : String
  password : String
  servicePort : String
  uploadsDir : String
deriving DecidableEq

/-- `checkAuthentication`: credentials pair present and exactly equal
to the configured username and password. -/
def checkAuthentication (cfg : ChiConfig) (r : Request) : Bool :=
  match r.basicAuth with
  | some (u, p) => u = cfg.username && p = cfg.password
  | none => false

/-- Segment split on both `/` and `\`, as `http.ServeFile`'s internal
`containsDotDot` uses. -/
def splitSlashes : List Char → List (List Char)
  | [] => [[]]
  | c :: rest =>
    if c = '/' ∨ c = '\\' then [] :: splitSlashes rest
    else
      match splitSlashes rest with
      | [] => [[c]]
      | s :: ss => (c :: s) :: ss

/-- `http.ServeFile` rejects URL paths containing a `..` segment. -/
def containsDotDot (p : String) : Bool :=
  (splitSlashes p.data).any (fun seg => seg = ['.', '.'])

/-- `serveCDN`: authenticate, join the uploads directory with the URL
path, `os.Stat` it (404 when absent, 500 on another stat error), then
delegate to `http.ServeFile`.  `ServeFile`'s own `..`-segment check is
modelled; its content-type detection (system mime database) and
range/redirect handling are stdlib behaviour outside this repository
and are not modelled — no claim below relies on them. -/
def serveCDN (cfg : ChiConfig) (r : Request) (fs : Fs) : Response × Fs :=
  if checkAuthentication cfg r then
    let filePath := goJoin cfg.uploadsDir r.urlPath
    match lookFs fs filePath with
    | .missing => (httpError "404 page not found" 404, fs)
    | .ioErr => (httpError "Internal Server Error" 500, fs)
    | .file content =>
      if containsDotDot r.urlPath then (httpError "invalid URL path" 400, fs)
      else ({ status := 200, headers := [], body := .bytes content }, fs)
  else
    (auth401Response, fs)

/-- `sanitizeFilename`: `strings.TrimSpace`.  Go trims every Unicode
space character; the Latin-1 range (ASCII whitespace plus U+0085 and
U+00A0) is modelled, which covers every input appearing below. -/
def isGoSpace (c : Char) : Bool :=
  decide (c = ' ' ∨ c = '\t' ∨ c = '\n' ∨ c.val = 11 ∨ c.val = 12 ∨
          c = '\r' ∨ c.val = 133 ∨ c.val = 160)

/-- `strings.TrimSpace`: drop leading and trailing whitespace. -/
def sanitizeFilename (s : String) : String :=
  String.mk (((s.data.dropWhile isGoSpace).reverse.dropWhile isGoSpace).reverse)

/-- The character class of `filenameRegex`, compiled from the pattern
written in the source with `regexp.MustCompile` (RE2):
letters, digits, hyphen, underscore, dot. -/
def goClassChar (c : Char) : Bool :=
  decide (('a' ≤ c ∧ c ≤ 'z') ∨ ('A' ≤ c ∧ c ≤ 'Z') ∨ ('0' ≤ c ∧ c ≤ '9') ∨
          c = '-' ∨ c = '_' ∨ c = '.')

/-- `isValidFilename`: `filenameRegex.MatchString`.  The pattern is
anchored on both sides with a one-or-more character class, so RE2
matches exactly the nonempty strings all of whose characters are in
the class. -/
def isValidFilename (s : String) : Bool :=
  !s.data.isEmpty && s.data.all goClassChar

/-- `handleUpload`: authenticate, `ParseMultipartForm` (error → 400
"Bad Request"; its 32<<20 argument is a memory-spill threshold, not a
size cap, so size alone never fails it), `FormFile("file")` (missing →
400), sanitize and validate the filename (invalid → 400 "Invalid
filename"), then create the file under the uploads directory and
respond 200. -/
def handleUpload (cfg : ChiConfig) (r : Request) (fs : Fs) : Response × Fs :=
  if checkAuthentication cfg r then
    if r.formOk = false then (httpError "Bad Request" 400, fs)
    else
      match r.filePart with
      | none => (httpError "No file provided in the request" 400, fs)
      | some (name, content) =>
        let filename := sanitizeFilename name
        if isValidFilename filename then
          ({ status := 200, headers := [], body := .text "File uploaded successfully!" },
           writeFs (goJoin cfg.uploadsDir filename) content fs)
        else (httpError "Invalid filename" 400, fs)
  else
    (auth401Response, fs)

/-! ## Config-driven revision (`main.go`, `CDNHandler`) -/

/-- The `Config` struct of the config-driven revision. -/
structure CdnConfig where
  port : String
  maxUploadSize : Nat
  requireAuth : Bool
  authUsername : String
  authPassword : String
  uploadDirectory : String
deriving DecidableEq

/-- The `Content-Type` switch in `handleGet`, keyed on
`filepath.Ext`: the default `application/octet-stream` is overridden
by the matching case, the first case covering both `.jpg` and
`.jpeg`. -/
def contentTypeOf (filePath : String) : String :=
  let ext := goExt filePath
  if ext = ".jpg" ∨ ext = ".jpeg" then "image/jpeg"
  else if ext = ".png" then "image/png"
  else if ext = ".pdf" then "application/pdf"
  else "application/octet-stream"

/-- `CDNHandler.handleGet`: join the upload directory with the URL
path and `os.Open` it.  Any open error — absent file or otherwise —
takes the single error branch responding 404 "File Not Found".  On
success the extension-based `Content-Type` header is set and the file
bytes are streamed with status 200.  No authentication is checked. -/
def handleGet (c : CdnConfig) (r : Request) (fs : Fs) : Response × Fs :=
  let filePath := goJoin c.uploadDirectory r.urlPath
  match lookFs fs filePath with
  | .file content =>
    ({ status := 200
     , headers := [("Content-Type", contentTypeOf filePath)]
     , body := .bytes content }, fs)
  | .missing => (httpError "File Not Found" 404, fs)
  | .ioErr => (httpError "File Not Found" 404, fs)

/-- `CDNHandler.handlePost`: wrap the body in
`http.MaxBytesReader(maxUploadSize)` and `ParseMultipartForm`; a body
over the limit or a malformed form fails the parse and takes the
single 413 "Payload Too Large" branch.  `FormFile("file")` failure
(missing field) responds 500 "Error retrieving file".  Otherwise the
file is created at `Join(uploadDirectory, Filename)` — defaulting the
directory to "uploads" when unconfigured — with no filename
validation, and the handler responds 200.  No authentication is
checked. -/
def handlePost (c : CdnConfig) (r : Request) (fs : Fs) : Response × Fs :=
  if c.maxUploadSize < r.size ∨ r.formOk = false then
    (httpError "Payload Too Large" 413, fs)
  else
    match r.filePart with
    | none => (httpError "Error retrieving file" 500, fs)
    | some (name, content) =>
      let uploadDir := if c.uploadDirectory = "" then "uploads" else c.uploadDirectory
      ({ status := 200, headers := [], body := .text "File uploaded successfully" },
       writeFs (goJoin uploadDir name) content fs)

/-- `CDNHandler.ServeHTTP`: dispatch on the method; anything other
than GET and POST gets 405 "Method Not Allowed". -/
def serveHTTP (c : CdnConfig) (r : Request) (fs : Fs) : Response × Fs :=
  if r.method = "GET" then handleGet c r fs
  else if r.method = "POST" then handlePost c r fs
  else (httpError "Method Not Allowed" 405, fs)

/-- The extension table exactly as the specification words it:
`.jpg`/`.jpeg` map to `image/jpeg`, `.png` to `image/png`, `.pdf` to
`application/pdf`, anything else to `application/octet-stream`. -/
def specContentType (ext : String) : String :=
  if ext = ".jpg" ∨ ext = ".jpeg" then "image/jpeg"
  else if ext = ".png" then "image/png"
  else if ext = ".pdf" then "application/pdf"
  else "application/octet-stream"

/-! ## Concrete fixtures for witnesses and counterexamples -/

/-- A sample configuration for the config-driven handler. -/
def sampleCdnConfig : CdnConfig :=
  { port := "8080", maxUploadSize := 1048576, requireAuth := true
  , authUsername := "admin", authPassword := "secret", uploadDirectory := "uploads" }

/-- A sample configuration for the chi revision. -/
def sampleChiConfig : ChiConfig :=
  { username := "admin", password := "secret", servicePort := "8080"
  , uploadsDir := "uploads" }

/-- A GET request with traversal segments in the URL path. -/
def traversalGet : Request :=
  { method := "GET", urlPath := "/../../etc/passwd", basicAuth := none
  , size := 0, formOk := true, filePart := none }

/-- A filesystem holding a file outside the upload directory (the
bytes of "root" standing in for `/etc/passwd` content). -/
def outsideFs : Fs := [("../etc/passwd", .file [114, 111, 111, 116])]

/-- An unauthenticated GET for an existing uploaded file. -/
def noAuthGet : Request :=
  { method := "GET", urlPath := "/a.txt", basicAuth := none
  , size := 0, formOk := true, filePart := none }

/-- A filesystem with one uploaded file `a.txt` (bytes of "hi"). -/
def fsWithA : Fs := [("uploads/a.txt", .file [104, 105])]

/-- A well-formed POST upload whose filename fails the allow-list. -/
def invalidNameUpload : Request :=
  { method := "POST", urlPath := "/upload", basicAuth := some ("admin", "secret")
  , size := 3, formOk := true, filePart := some ("bad name!", [1, 2, 3]) }

/-- A well-formed POST upload with no `file` field. -/
def missingFileUpload : Request :=
  { method := "POST", urlPath := "/upload", basicAuth := some ("admin", "secret")
  , size := 10, formOk := true, filePart := none }

/-- An authenticated GET for a file whose stat/open fails with a
non-"missing" error. -/
def ioErrGet : Request :=
  { method := "GET", urlPath := "/locked.txt", basicAuth := some ("admin", "secret")
  , size := 0, formOk := true, filePart := none }

/-- A filesystem where `uploads/locked.txt` yields a stat/open error. -/
def ioErrFs : Fs := [("uploads/locked.txt", .ioErr)]

/-- A GET for a stored PDF file. -/
def pdfGet : Request :=
  { method := "GET", urlPath := "/r.pdf", basicAuth := some ("admin", "secret")
  , size := 0, formOk := true, filePart := none }

/-- A filesystem with one stored PDF (the bytes of "%PDF"). -/
def pdfFs : Fs := [("uploads/r.pdf", .file [37, 80, 68, 70])]

/-- A well-formed upload of `report.pdf` (bytes of "%PDF"). -/
def uploadPdf : Request :=
  { method := "POST", urlPath := "/upload", basicAuth := some ("admin", "secret")
  , size := 4, formOk := true, filePart := some ("report.pdf", [37, 80, 68, 70]) }

/-- A subsequent GET for the uploaded `report.pdf`. -/
def getReportPdf : Request :=
  { method := "GET", urlPath := "/report.pdf", basicAuth := some ("admin", "secret")
  , size := 0, formOk := true, filePart := none }

/-! ## Path-algebra sanity checks and lemmas -/

-- Behaviour of the embedded `Clean`/`Join`/`Ext` on Go's documented cases.
example : goClean "uploads/../../etc/passwd" = "../etc/passwd" := by decide
example : goClean "a//b/./c/.." = "a/b" := by decide
example : goClean "/../x" = "/x" := by decide
example : goClean "" = "." := by decide
example : goJoin "uploads" "/a.txt" = "uploads/a.txt" := by decide
example : goJoin "uploads" "/../secret" = "secret" := by decide
example : goJoin "uploads" ".." = "." := by decide
example : goExt "uploads/r.pdf" = ".pdf" := by decide
example : goExt "uploads/r" = "" := by decide
example : goExt "a.b/c" = "" := by decide
example : isWithinDir "uploads" "uploads/a.txt" = true := by decide
example : isWithinDir "uploads" "uploadsx/a" = false := by decide
example : isWithinDir "uploads" "../etc/passwd" = false := by decide

/-- `splitSlash` always yields at least one segment. -/
theorem splitSlash_ne_nil (l : List Char) : splitSlash l ≠ [] := by
  cases l with
  | nil => simp [splitSlash]
  | cons c rest =>
    unfold splitSlash
    by_cases h : c = '/'
    · simp [h]
    · simp only [if_neg h]
      cases splitSlash rest <;> simp

/-- Splitting distributes over a `/` in the middle of a path. -/
theorem splitSlash_append (xs ys : List Char) :
    splitSlash (xs ++ '/' :: ys) = splitSlash xs ++ splitSlash ys := by
  induction xs with
  | nil => simp [splitSlash]
  | cons c rest ih =>
    simp only [List.cons_append, splitSlash]
    by_cases h : c = '/'
    · simp [h, ih]
    · simp only [if_neg h, ih]
      cases hs : splitSlash rest with
      | nil => exact absurd hs (splitSlash_ne_nil rest)
      | cons s ss => simp [ih, hs]

/-- A slash-free path is a single segment. -/
theorem splitSlash_no_slash (l : List Char) (h : ∀ c ∈ l, c ≠ '/') :
    splitSlash l = [l] := by
  induction l with
  | nil => rfl
  | cons c rest ih =>
    unfold splitSlash
    rw [if_neg (h c (by simp)), ih (fun x hx => h x (by simp [hx]))]

/-- `Clean`'s segment loop ignores an empty segment anywhere. -/
theorem cleanCore_skip_empty (r : Bool) (l1 l2 : List (List Char))
    (acc : List (List Char)) :
    cleanCore r (l1 ++ [] :: l2) acc = cleanCore r (l1 ++ l2) acc := by
  induction l1 generalizing acc with
  | nil => simp [cleanCore, cleanStep]
  | cons seg l1 ih =>
    simp only [List.cons_append, cleanCore]
    exact ih _

/-- Cleaning collapses a doubled slash before a slash-free final
segment. -/
theorem goCleanChars_double_slash (d nd : List Char) (hd : d ≠ [])
    (hns : ∀ c ∈ nd, c ≠ '/') :
    goCleanChars (d ++ '/' :: '/' :: nd) = goCleanChars (d ++ '/' :: nd) := by
  have h1 : splitSlash (d ++ '/' :: '/' :: nd) = splitSlash d ++ [] :: [nd] := by
    rw [splitSlash_append]
    have hss : splitSlash ('/' :: nd) = [] :: splitSlash nd := by simp [splitSlash]
    rw [hss, splitSlash_no_slash nd hns]
  have h2 : splitSlash (d ++ '/' :: nd) = splitSlash d ++ [nd] := by
    rw [splitSlash_append, splitSlash_no_slash nd hns]
  have hne1 : d ++ '/' :: '/' :: nd ≠ [] := by simp
  have hne2 : d ++ '/' :: nd ≠ [] := by simp
  have hhead : headIsSlash (d ++ '/' :: '/' :: nd) = headIsSlash (d ++ '/' :: nd) := by
    cases d with
    | nil => exact absurd rfl hd
    | cons c d2 => rfl
  simp only [goCleanChars, h1, h2, hhead, if_neg hne1, if_neg hne2, cleanCore_skip_empty]

/-- `Join(dir, "/" ++ name)` and `Join(dir, name)` clean to the same
path when `name` is slash-free: the URL path of a GET for an uploaded
filename resolves to the same location the upload wrote. -/
theorem goJoin_slash_absorb (dir name : String) (hdir : dir ≠ "")
    (hns : ∀ c ∈ name.data, c ≠ '/') :
    goJoin dir ("/" ++ name) = goJoin dir name := by
  have hd : dir.data ≠ [] := fun h => hdir (String.ext h)
  have hsd : ("/" : String).data = ['/'] := rfl
  unfold goJoin
  rw [if_pos hdir, if_pos hdir]
  unfold goClean
  have e1 : (dir ++ "/" ++ ("/" ++ name)).data = dir.data ++ '/' :: '/' :: name.data := by
    simp [String.data_append, hsd]
  have e2 : (dir ++ "/" ++ name).data = dir.data ++ '/' :: name.data := by
    simp [String.data_append, hsd]
  rw [e1, e2, goCleanChars_double_slash dir.data name.data hd hns]

/-- Looking up the path just written returns the written content. -/
theorem lookFs_writeFs_self (p : String) (content : ByteSeq) (fs : Fs) :
    lookFs (writeFs p content fs) p = .file content := by
  simp [lookFs, writeFs]

/-- A valid filename contains no slash. -/
theorem isValidFilename_no_slash (name : String) (h : isValidFilename name = true) :
    ∀ c ∈ name.data, c ≠ '/' := by
  intro c hc heq
  unfold isValidFilename at h
  rw [Bool.and_eq_true, List.all_eq_true] at h
  have hcc := h.2 c hc
  rw [heq] at hcc
  exact absurd hcc (by decide)

/-! ## Claim theorems -/

/-- C1: the claim says a GET's resolved path never exits the
configured upload directory even with `..` segments, and the handler
never reads outside it.  The code violates this: `handleGet` joins the
upload directory with the raw URL path, `filepath.Join` resolves the
`..` segments lexically to a path outside the directory, and the
handler opens that path and serves its content with status 200. -/
theorem C1_handleGet_traversal_escape :
    goJoin "uploads" "/../../etc/passwd" = "../etc/passwd" ∧
    isWithinDir "uploads" (goJoin "uploads" "/../../etc/passwd") = false ∧
    (handleGet sampleCdnConfig traversalGet outsideFs).1.status = 200 ∧
    (handleGet sampleCdnConfig traversalGet outsideFs).1.body = .bytes [114, 111, 111, 116] := by
  decide

/-- C2 counterexample: against the config-driven handler, a GET with
no credentials at all is served normally (status 200, file bytes
streamed), not answered with 401 — `CDNHandler` never consults
`checkAuthentication`, and a file is read. -/
theorem C2_cdnHandler_skips_auth :
    (serveHTTP sampleCdnConfig noAuthGet fsWithA).1.status = 200 ∧
    (serveHTTP sampleCdnConfig noAuthGet fsWithA).1.status ≠ 401 ∧
    (serveHTTP sampleCdnConfig noAuthGet fsWithA).1.body = .bytes [104, 105] := by
  decide

/-- C2 amended: in the chi revision, every request lacking valid
credentials is answered by both handlers with status 401, the
`WWW-Authenticate: Basic realm="CDN Authentication"` header and body
`"401 Unauthorized\n"`, and the filesystem is untouched (the response
is a fixed constant, so nothing is read either). -/
theorem C2_chi_auth_401 (cfg : ChiConfig) (r : Request) (fs : Fs)
    (h : checkAuthentication cfg r = false) :
    serveCDN cfg r fs = (auth401Response, fs) ∧
    handleUpload cfg r fs = (auth401Response, fs) := by
  constructor <;> simp [serveCDN, handleUpload, h]

/-- Witness for C2's amended theorem at a concrete unauthenticated
request. -/
theorem C2_chi_auth_401_witness :
    checkAuthentication sampleChiConfig noAuthGet = false ∧
    (serveCDN sampleChiConfig noAuthGet fsWithA = (auth401Response, fsWithA) ∧
     handleUpload sampleChiConfig noAuthGet fsWithA = (auth401Response, fsWithA)) :=
  ⟨by decide, C2_chi_auth_401 sampleChiConfig noAuthGet fsWithA (by decide)⟩

/-- C4: the claim says any upload whose filename is empty after
trimming, fails the allow-list, or contains a separator gets 400 and
creates no file.  The config-driven handler performs no filename
validation at all: the filename "bad name!" fails the chi revision's
validator, yet `handlePost` accepts it with status 200 and creates
`uploads/bad name!`. -/
theorem C4_cdnHandler_accepts_invalid_filename :
    isValidFilename (sanitizeFilename "bad name!") = false ∧
    (handlePost sampleCdnConfig invalidNameUpload []).1.status = 200 ∧
    lookFs (handlePost sampleCdnConfig invalidNameUpload []).2 "uploads/bad name!" =
      .file [1, 2, 3] := by
  decide

/-- C5: a POST whose body size exceeds the configured maximum upload
size is rejected by `handlePost` with status 413 "Payload Too Large"
and the filesystem is unchanged: no file is created. -/
theorem C5_payload_too_large (c : CdnConfig) (r : Request) (fs : Fs)
    (h : c.maxUploadSize < r.size) :
    handlePost c r fs = (httpError "Payload Too Large" 413, fs) := by
  unfold handlePost
  rw [if_pos (Or.inl h)]

/-- Witness for C5 at a concrete oversized upload. -/
theorem C5_payload_too_large_witness :
    sampleCdnConfig.maxUploadSize < 2000000 ∧
    handlePost sampleCdnConfig
      { method := "POST", urlPath := "/upload", basicAuth := some ("admin", "secret")
      , size := 2000000, formOk := true, filePart := some ("big.bin", [0]) } [] =
      (httpError "Payload Too Large" 413, []) :=
  ⟨by decide, C5_payload_too_large sampleCdnConfig _ [] (by decide)⟩

/-- C6 counterexample: a well-formed, size-conforming POST with no
`file` field gets status 500 "Error retrieving file" from the
config-driven handler, not the claimed 400 (no file is created). -/
theorem C6_missing_field_is_500 :
    (handlePost sampleCdnConfig missingFileUpload []).1.status = 500 ∧
    (handlePost sampleCdnConfig missingFileUpload []).1.status ≠ 400 ∧
    (handlePost sampleCdnConfig missingFileUpload []).2 = [] := by
  decide

/-- C6 amended: no file is ever created for a malformed form or a
missing `file` field, but the statuses differ by revision: the chi
revision's `handleUpload` responds 400 in both cases, while the
config-driven `handlePost` responds 413 to a malformed form and 500 to
a missing `file` field. -/
theorem C6_bad_form_no_write (cfg : ChiConfig) (c : CdnConfig) (r : Request) (fs : Fs)
    (hauth : checkAuthentication cfg r = true) :
    (r.formOk = false → handleUpload cfg r fs = (httpError "Bad Request" 400, fs)) ∧
    (r.formOk = true → r.filePart = none →
      handleUpload cfg r fs = (httpError "No file provided in the request" 400, fs)) ∧
    (r.formOk = false → handlePost c r fs = (httpError "Payload Too Large" 413, fs)) ∧
    (r.size ≤ c.maxUploadSize → r.formOk = true → r.filePart = none →
      handlePost c r fs = (httpError "Error retrieving file" 500, fs)) := by
  refine ⟨fun hf => ?_, fun hf hp => ?_, fun hf => ?_, fun hs hf hp => ?_⟩
  · simp [handleUpload, hauth, hf]
  · simp [handleUpload, hauth, hf, hp]
  · unfold handlePost
    rw [if_pos (Or.inr hf)]
  · unfold handlePost
    rw [if_neg (by simp [hf, Nat.not_lt.mpr hs]), hp]

/-- Witness for C6's amended theorem: one malformed-form request and
one missing-field request, against both handlers. -/
theorem C6_bad_form_no_write_witness :
    checkAuthentication sampleChiConfig missingFileUpload = true ∧
    handleUpload sampleChiConfig
      { missingFileUpload with formOk := false } [] = (httpError "Bad Request" 400, []) ∧
    handleUpload sampleChiConfig missingFileUpload [] =
      (httpError "No file provided in the request" 400, []) ∧
    handlePost sampleCdnConfig
      { missingFileUpload with formOk := false } [] = (httpError "Payload Too Large" 413, []) ∧
    handlePost sampleCdnConfig missingFileUpload [] =
      (httpError "Error retrieving file" 500, []) :=
  ⟨by decide,
   (C6_bad_form_no_write sampleChiConfig sampleCdnConfig
      { missingFileUpload with formOk := false } [] (by decide)).1 (by decide),
   ((C6_bad_form_no_write sampleChiConfig sampleCdnConfig
      missingFileUpload [] (by decide)).2.1 (by decide) (by decide)),
   ((C6_bad_form_no_write sampleChiConfig sampleCdnConfig
      { missingFileUpload with formOk := false } [] (by decide)).2.2.1 (by decide)),
   ((C6_bad_form_no_write sampleChiConfig sampleCdnConfig
      missingFileUpload [] (by decide)).2.2.2 (by decide) (by decide) (by decide))⟩

/-- C7 counterexample: when the stat/open of the resolved file fails
with a non-"missing" error, the config-driven `handleGet` responds
404, not the claimed 500 — its single error branch treats every open
error as "File Not Found". -/
theorem C7_ioErr_is_404 :
    (handleGet sampleCdnConfig ioErrGet ioErrFs).1.status = 404 ∧
    (handleGet sampleCdnConfig ioErrGet ioErrFs).1.status ≠ 500 := by
  decide

/-- C7 amended: an absent file yields 404 from both revisions; a
non-"missing" stat error yields 500 from the chi revision's
`serveCDN`, but the config-driven `handleGet` collapses every open
error, including non-"missing" ones, to 404. -/
theorem C7_stat_error_mapping (cfg : ChiConfig) (c : CdnConfig) (r : Request) (fs : Fs)
    (hauth : checkAuthentication cfg r = true) :
    (lookFs fs (goJoin cfg.uploadsDir r.urlPath) = .missing →
      serveCDN cfg r fs = (httpError "404 page not found" 404, fs)) ∧
    (lookFs fs (goJoin cfg.uploadsDir r.urlPath) = .ioErr →
      serveCDN cfg r fs = (httpError "Internal Server Error" 500, fs)) ∧
    (lookFs fs (goJoin c.uploadDirectory r.urlPath) = .missing →
      handleGet c r fs = (httpError "File Not Found" 404, fs)) ∧
    (lookFs fs (goJoin c.uploadDirectory r.urlPath) = .ioErr →
      handleGet c r fs = (httpError "File Not Found" 404, fs)) := by
  refine ⟨fun h => ?_, fun h => ?_, fun h => ?_, fun h => ?_⟩ <;>
    simp [serveCDN, handleGet, hauth, h]

/-- Witness for C7's amended theorem: a missing file and an
error-state file, against both revisions. -/
theorem C7_stat_error_mapping_witness :
    checkAuthentication sampleChiConfig ioErrGet = true ∧
    serveCDN sampleChiConfig ioErrGet [] = (httpError "404 page not found" 404, []) ∧
    serveCDN sampleChiConfig ioErrGet ioErrFs =
      (httpError "Internal Server Error" 500, ioErrFs) ∧
    handleGet sampleCdnConfig ioErrGet [] = (httpError "File Not Found" 404, []) ∧
    handleGet sampleCdnConfig ioErrGet ioErrFs = (httpError "File Not Found" 404, ioErrFs) :=
  ⟨by decide,
   (C7_stat_error_mapping sampleChiConfig sampleCdnConfig ioErrGet [] (by decide)).1
     (by decide),
   (C7_stat_error_mapping sampleChiConfig sampleCdnConfig ioErrGet ioErrFs
     (by decide)).2.1 (by decide),
   (C7_stat_error_mapping sampleChiConfig sampleCdnConfig ioErrGet [] (by decide)).2.2.1
     (by decide),
   (C7_stat_error_mapping sampleChiConfig sampleCdnConfig ioErrGet ioErrFs
     (by decide)).2.2.2 (by decide)⟩

/-- C10: any request whose method is neither GET nor POST is answered
by `ServeHTTP` with status 405 "Method Not Allowed"; the response is a
fixed constant and the filesystem is returned unchanged, so nothing is
read or written. -/
theorem C10_method_not_allowed (c : CdnConfig) (r : Request) (fs : Fs)
    (h1 : r.method ≠ "GET") (h2 : r.method ≠ "POST") :
    serveHTTP c r fs = (httpError "Method Not Allowed" 405, fs) := by
  unfold serveHTTP
  rw [if_neg h1, if_neg h2]

/-- The switch in `handleGet` computes exactly the specification's
extension table applied to `filepath.Ext` of the path. -/
theorem contentTypeOf_eq_spec (s : String) :
    contentTypeOf s = specContentType (goExt s) := rfl

/-- C8: on every successful GET of an existing file, `handleGet`
responds 200 with the file bytes and a `Content-Type` header given by
the specification's fixed extension table. -/
theorem C8_get_content_type (c : CdnConfig) (r : Request) (fs : Fs) (content : ByteSeq)
    (h : lookFs fs (goJoin c.uploadDirectory r.urlPath) = .file content) :
    (handleGet c r fs).1.status = 200 ∧
    (handleGet c r fs).1.body = .bytes content ∧
    (handleGet c r fs).1.headers =
      [("Content-Type", specContentType (goExt (goJoin c.uploadDirectory r.urlPath)))] := by
  simp [handleGet, h, contentTypeOf_eq_spec]

/-- Witness for C8 at a concrete GET of a stored PDF. -/
theorem C8_get_content_type_witness :
    lookFs pdfFs (goJoin sampleCdnConfig.uploadDirectory pdfGet.urlPath) =
      .file [37, 80, 68, 70] ∧
    ((handleGet sampleCdnConfig pdfGet pdfFs).1.status = 200 ∧
     (handleGet sampleCdnConfig pdfGet pdfFs).1.body = .bytes [37, 80, 68, 70] ∧
     (handleGet sampleCdnConfig pdfGet pdfFs).1.headers =
       [("Content-Type",
         specContentType (goExt (goJoin sampleCdnConfig.uploadDirectory pdfGet.urlPath)))]) :=
  ⟨by decide, C8_get_content_type sampleCdnConfig pdfGet pdfFs [37, 80, 68, 70] (by decide)⟩

/-- C9: `isValidFilename` is a plain function of its input (no state
in the embedding), and it accepts exactly the strings matched by the
anchored allow-list pattern: nonempty strings all of whose characters
are letters, digits, underscore, dot or hyphen. -/
theorem C9_isValidFilename_allowlist (s : String) :
    isValidFilename s = true ↔
      (s ≠ "" ∧ ∀ c ∈ s.data,
        ('A' ≤ c ∧ c ≤ 'Z') ∨ ('a' ≤ c ∧ c ≤ 'z') ∨ ('0' ≤ c ∧ c ≤ '9') ∨
        c = '_' ∨ c = '.' ∨ c = '-') := by
  have hchar : ∀ ch : Char, goClassChar ch = true ↔
      (('A' ≤ ch ∧ ch ≤ 'Z') ∨ ('a' ≤ ch ∧ ch ≤ 'z') ∨ ('0' ≤ ch ∧ ch ≤ '9') ∨
        ch = '_' ∨ ch = '.' ∨ ch = '-') := by
    intro ch
    unfold goClassChar
    rw [decide_eq_true_eq]
    tauto
  unfold isValidFilename
  rw [Bool.and_eq_true, List.all_eq_true]
  constructor
  · rintro ⟨h1, h2⟩
    refine ⟨fun hs => ?_, fun c hc => (hchar c).mp (h2 c hc)⟩
    rw [hs] at h1
    exact absurd h1 (by decide)
  · rintro ⟨h1, h2⟩
    refine ⟨?_, fun c hc => (hchar c).mpr (h2 c hc)⟩
    cases hd : s.data with
    | nil => exact absurd (String.ext hd) h1
    | cons a l => rfl

/-- Witness for C9 in both directions at concrete filenames. -/
theorem C9_isValidFilename_allowlist_witness :
    isValidFilename "report-2.pdf" = true ∧ isValidFilename "bad name!" ≠ true :=
  ⟨(C9_isValidFilename_allowlist "report-2.pdf").mpr (by decide),
   fun h => by
     have := ((C9_isValidFilename_allowlist "bad name!").mp h).2 ' ' (by decide)
     exact absurd this (by decide)⟩

/-- C3: for every POST upload whose filename matches the allow-list
and whose body size is within the configured maximum, the
config-driven handler responds 200, the file appears at
`Join(upload_directory, filename)` with the uploaded bytes, and a
subsequent GET for `/<filename>` returns status 200 with exactly those
bytes. -/
theorem C3_upload_download_roundtrip (c : CdnConfig) (r g : Request) (fs : Fs)
    (name : String) (content : ByteSeq)
    (hdir : c.uploadDirectory ≠ "")
    (hpm : r.method = "POST") (hsz : r.size ≤ c.maxUploadSize) (hform : r.formOk = true)
    (hfile : r.filePart = some (name, content))
    (hvalid : isValidFilename name = true)
    (hgm : g.method = "GET") (hgp : g.urlPath = "/" ++ name) :
    (serveHTTP c r fs).1.status = 200 ∧
    lookFs (serveHTTP c r fs).2 (goJoin c.uploadDirectory name) = .file content ∧
    (serveHTTP c g (serveHTTP c r fs).2).1.status = 200 ∧
    (serveHTTP c g (serveHTTP c r fs).2).1.body = .bytes content := by
  have hns := isValidFilename_no_slash name hvalid
  have hnlt : ¬ c.maxUploadSize < r.size := Nat.not_lt.mpr hsz
  have hjoin : goJoin c.uploadDirectory ("/" ++ name) = goJoin c.uploadDirectory name :=
    goJoin_slash_absorb c.uploadDirectory name hdir hns
  have hup : serveHTTP c r fs =
      ({ status := 200, headers := [], body := .text "File uploaded successfully" },
       writeFs (goJoin c.uploadDirectory name) content fs) := by
    simp [serveHTTP, handlePost, hpm, hfile, hform, hnlt, hdir]
  refine ⟨?_, ?_, ?_, ?_⟩
  · rw [hup]
  · rw [hup]
    exact lookFs_writeFs_self _ _ _
  · rw [hup]
    simp [serveHTTP, handleGet, hgm, hgp, hjoin, lookFs_writeFs_self]
  · rw [hup]
    simp [serveHTTP, handleGet, hgm, hgp, hjoin, lookFs_writeFs_self]

/-- Witness for C3: upload `report.pdf` then GET `/report.pdf` against
a concrete configuration and an empty filesystem. -/
theorem C3_upload_download_roundtrip_witness :
    (sampleCdnConfig.uploadDirectory ≠ "" ∧ uploadPdf.method = "POST" ∧
     uploadPdf.size ≤ sampleCdnConfig.maxUploadSize ∧ uploadPdf.formOk = true ∧
     uploadPdf.filePart = some ("report.pdf", [37, 80, 68, 70]) ∧
     isValidFilename "report.pdf" = true ∧
     getReportPdf.method = "GET" ∧ getReportPdf.urlPath = "/" ++ "report.pdf") ∧
    ((serveHTTP sampleCdnConfig uploadPdf []).1.status = 200 ∧
     lookFs (serveHTTP sampleCdnConfig uploadPdf []).2
       (goJoin sampleCdnConfig.uploadDirectory "report.pdf") = .file [37, 80, 68, 70] ∧
     (serveHTTP sampleCdnConfig getReportPdf
       (serveHTTP sampleCdnConfig uploadPdf []).2).1.status = 200 ∧
     (serveHTTP sampleCdnConfig getReportPdf
       (serveHTTP sampleCdnConfig uploadPdf []).2).1.body = .bytes [37, 80, 68, 70]) :=
  ⟨by decide,
   C3_upload_download_roundtrip sampleCdnConfig uploadPdf getReportPdf [] "report.pdf"
     [37, 80, 68, 70] (by decide) (by decide) (by decide) (by decide) (by decide)
     (by decide) (by decide) (by decide)⟩

/-- Witness for C10 at a concrete DELETE request. -/
theorem C10_method_not_allowed_witness :
    ("DELETE" : String) ≠ "GET" ∧ ("DELETE" : String) ≠ "POST" ∧
    serveHTTP sampleCdnConfig
      { method := "DELETE", urlPath := "/a.txt", basicAuth := none
      , size := 0, formOk := true, filePart := none } fsWithA =
      (httpError "Method Not Allowed" 405, fsWithA) :=
  ⟨by decide, by decide,
   C10_method_not_allowed sampleCdnConfig _ fsWithA (by decide) (by decide)⟩

end GoCdn
